import Mathlib

/-!
# Verification of the cribbage LAN service-discovery core (`src/net.rs`)

A shallow embedding of the UDP-multicast advertisement protocol implemented in
`src/net.rs`: the multicast socket factory (`multicast_udp_socket`), the
advertisement server loop (`serve_advertisement`), and the client query loop
(`query_advertisements`), together with the codecs they use (tokio's
`LengthDelimitedCodec` for framing and `bincode` for the record shape).

Bytes are modelled as `Nat` (values `< 256` on every path produced by an
encoder); socket addresses as an IPv4 quadruple plus a port; the event-driven
receive loops as functions over a list of inbound events. The magic marker
strings are pure ASCII, so their UTF-8 byte sequences coincide with their
character code points.
-/

namespace Cribbage

/-- An IPv4 address, as in `Ipv4Addr::new(a, b, c, d)`. -/
structure Ipv4Addr where
  a : Nat
  b : Nat
  c : Nat
  d : Nat
deriving DecidableEq, Repr

/-- A socket address: IPv4 address plus UDP port, as in `SocketAddrV4::new`. -/
structure SocketAddrV4 where
  ip : Ipv4Addr
  port : Nat
deriving DecidableEq, Repr

/-- `const IP_ALL: Ipv4Addr = Ipv4Addr::new(0, 0, 0, 0)`. -/
def IP_ALL : Ipv4Addr := ⟨0, 0, 0, 0⟩

/-- `const IP_MULTICAST: Ipv4Addr = Ipv4Addr::new(229, 29, 29, 29)`. -/
def IP_MULTICAST : Ipv4Addr := ⟨229, 29, 29, 29⟩

/-- `const ADVERT_PORT: u16 = 29999`. -/
def ADVERT_PORT : Nat := 29999

/-- `const MAGIC_REQUEST: &str = "cribbage-advertisement-request"`. -/
def MAGIC_REQUEST : String := "cribbage-advertisement-request"

/-- `const MAGIC_RESPONSE: &str = "cribbage-advertisement-response"`. -/
def MAGIC_RESPONSE : String := "cribbage-advertisement-response"

/-- The byte sequence of an ASCII string: for the two magic constants every
character is below `0x80`, so the code points are exactly the UTF-8 bytes. -/
def asciiBytes (s : String) : List Nat := s.data.map Char.toNat

/-- The wire bytes of the request marker (`Bytes::from(MAGIC_REQUEST)`). -/
def magicRequestBytes : List Nat := asciiBytes MAGIC_REQUEST

/-- The byte sequence of the response marker string. -/
def magicResponseBytes : List Nat := asciiBytes MAGIC_RESPONSE

/-! ## Record codec (`bincode`, legacy defaults: little-endian, fixed ints,
`u64` string length) -/

/-- The `AdvertisementResponse` record; its `magic: &str` field is modelled by
its UTF-8 byte sequence. -/
structure AdvertisementResponse where
  magic : List Nat
  port : Nat
deriving DecidableEq, Repr

/-- Little-endian bytes of a `u64` (the bincode length header of a `&str`). -/
def le64 (n : Nat) : List Nat :=
  [n % 256, n / 256 % 256, n / 65536 % 256, n / 16777216 % 256,
   n / 4294967296 % 256, n / 1099511627776 % 256,
   n / 281474976710656 % 256, n / 72057594037927936 % 256]

/-- Little-endian bytes of a `u16` (the bincode encoding of the `port` field). -/
def le16 (n : Nat) : List Nat := [n % 256, n / 256 % 256]

/-- `bincode::serialize` of an `AdvertisementResponse`: `u64` little-endian
string length, the string's UTF-8 bytes, then the `u16` port little-endian. -/
def bincodeSerialize (r : AdvertisementResponse) : List Nat :=
  le64 r.magic.length ++ r.magic ++ le16 r.port

/-- `bincode::deserialize::<AdvertisementResponse>`: read the `u64` length,
then that many string bytes, then two port bytes; trailing bytes are ignored
(as `bincode::deserialize` does). Malformed input yields `none` (an `Err`),
never a panic. UTF-8 validity of the string bytes is not re-checked here; the
magic field is already modelled as raw bytes. -/
def bincodeDeserialize : List Nat → Option AdvertisementResponse
  | b0 :: b1 :: b2 :: b3 :: b4 :: b5 :: b6 :: b7 :: rest =>
    let n := b0 + 256 * b1 + 65536 * b2 + 16777216 * b3 + 4294967296 * b4 +
             1099511627776 * b5 + 281474976710656 * b6 +
             72057594037927936 * b7
    if n ≤ rest.length then
      match rest.drop n with
      | p0 :: p1 :: _ => some ⟨rest.take n, p0 + 256 * p1⟩
      | _ => none
    else none
  | _ => none

/-! ## Framing codec (`LengthDelimitedCodec` defaults: 4-byte big-endian
length field, maximum frame length 8 MiB) -/

/-- Big-endian bytes of a `u32` (the frame length header). -/
def be32 (n : Nat) : List Nat :=
  [n / 16777216 % 256, n / 65536 % 256, n / 256 % 256, n % 256]

/-- Encode-side framing: prepend the 4-byte big-endian payload length. -/
def encodeFrame (payload : List Nat) : List Nat := be32 payload.length ++ payload

/-- Decode-side framing for one datagram: read the 4-byte header, reject a
length over the codec's 8 MiB maximum, and take that many payload bytes; any
shorter or garbled input yields `none` (an error/incomplete frame the caller
treats as a discarded datagram), never a panic. -/
def decodeFrame : List Nat → Option (List Nat)
  | b0 :: b1 :: b2 :: b3 :: rest =>
    let n := ((b0 * 256 + b1) * 256 + b2) * 256 + b3
    if n ≤ 8388608 then
      if n ≤ rest.length then some (rest.take n) else none
    else none
  | _ => none

/-! ## Advertisement server (`serve_advertisement`) -/

/-- One event observed by the server's framed receive stream:
a successfully deframed datagram with its sender address (`sendOk` records
whether the socket send attempted in response to it would succeed), a
receive-level stream error (transport or framing failure), or end of
stream (`None`). -/
inductive ServerEvent where
  | frame (payload : List Nat) (src : SocketAddrV4) (sendOk : Bool)
  | recvError
  | streamEnd
deriving DecidableEq, Repr

/-- How the server loop stands after consuming a finite event trace. -/
inductive ServerOutcome where
  /-- All events consumed, the loop is still awaiting the next datagram. -/
  | listening
  /-- The stream yielded `None`: `future::Loop::Break(())`. -/
  | finished
  /-- `rx.into_future()` yielded an error: `map_err(drop)` makes the
  `loop_fn` future fail, terminating the server task. -/
  | recvFailed
  /-- `tx.send(..)` failed: `map_err(drop)` terminates the server task. -/
  | sendFailed
deriving DecidableEq, Repr

/-- The serialized reply body built for a valid request:
`bincode::serialize(&AdvertisementResponse { magic: MAGIC_RESPONSE, port })`. -/
def responseBytes (port : Nat) : List Nat :=
  bincodeSerialize ⟨magicResponseBytes, port⟩

/-- The server's handling of one deframed datagram: `if bytes == MAGIC_REQUEST`
build the reply addressed to the sender, otherwise nothing. -/
def handleFrame (port : Nat) (payload : List Nat) (src : SocketAddrV4) :
    Option (List Nat × SocketAddrV4) :=
  if payload = magicRequestBytes then some (responseBytes port, src) else none

/-- How `UdpFramed` with `LengthDelimitedCodec` turns one raw inbound datagram
into a server stream item: a payload whose frame decodes yields `.frame`; a
length header over the codec's 8 MiB maximum makes `decode` return `Err`,
which `UdpFramed` surfaces as a stream error (`.recvError`); a datagram
shorter than its header claims (or than the 4-byte header itself) makes
`decode` return `Ok(None)`, which `UdpFramed` yields as `None`, ending the
stream (`.streamEnd`). -/
def datagramToServerEvent (raw : List Nat) (src : SocketAddrV4)
    (sendOk : Bool) : ServerEvent :=
  match raw with
  | b0 :: b1 :: b2 :: b3 :: rest =>
    let n := ((b0 * 256 + b1) * 256 + b2) * 256 + b3
    if n ≤ 8388608 then
      if n ≤ rest.length then .frame (rest.take n) src sendOk
      else .streamEnd
    else .recvError
  | _ => .streamEnd

/-- The server receive loop of `serve_advertisement(port)` over a finite trace
of stream events: the list of datagrams handed to `tx.send` (reply body and
destination address), and the loop's final standing. -/
def serve_advertisement (port : Nat) :
    List ServerEvent → List (List Nat × SocketAddrV4) × ServerOutcome
  | [] => ([], .listening)
  | .frame payload src sendOk :: rest =>
    match handleFrame port payload src with
    | some reply =>
      if sendOk then
        let r := serve_advertisement port rest
        (reply :: r.1, r.2)
      else ([], .sendFailed)
    | none => serve_advertisement port rest
  | .recvError :: _ => ([], .recvFailed)
  | .streamEnd :: _ => ([], .finished)

/-! ## Advertisement client (`query_advertisements`) -/

/-- One event observed by the client's framed receive stream, stamped with its
arrival time (milliseconds since the query's request was sent). -/
inductive ClientEvent where
  | datagram (payload : List Nat) (src : SocketAddrV4)
  | recvError
  | streamEnd
deriving DecidableEq, Repr

/-- How the client query loop ended. -/
inductive QueryEnd where
  /-- The stream yielded `None`: `future::Loop::Break(())`, normal completion. -/
  | finished
  /-- The stream errored; `map_err(drop)` fails the query future. -/
  | failed
deriving DecidableEq, Repr

/-- How `UdpFramed` with `LengthDelimitedCodec` turns one raw inbound datagram
into a client stream item, with the same three-way split as on the server
side: deframed payload, codec `Err` (stream error), or `Ok(None)`
(stream end). -/
def datagramToClientEvent (raw : List Nat) (src : SocketAddrV4) : ClientEvent :=
  match raw with
  | b0 :: b1 :: b2 :: b3 :: rest =>
    let n := ((b0 * 256 + b1) * 256 + b2) * 256 + b3
    if n ≤ 8388608 then
      if n ≤ rest.length then .datagram (rest.take n) src
      else .streamEnd
    else .recvError
  | _ => .streamEnd

/-- The client's handling of one deframed datagram, mirroring the source's
match: `Ok(a) => drop(a), Err(e) => drop(e)` — both arms discard, so no
discovered pair is ever emitted. -/
def clientHandleDatagram (payload : List Nat) (_src : SocketAddrV4) :
    List (SocketAddrV4 × Nat) :=
  match bincodeDeserialize payload with
  | some _ => []
  | none => []

/-- The datagram the client hands to `tx.send`: the raw request marker bytes,
addressed to the multicast group on the advertisement port. -/
def queryRequestSend : List Nat × SocketAddrV4 :=
  (magicRequestBytes, ⟨IP_MULTICAST, ADVERT_PORT⟩)

/-- The client receive loop of `query_advertisements` over a finite trace of
time-stamped stream events: the discovered pairs the loop emits (none — the
source drops every decoded record) and, when the loop has ended, the time and
manner of its ending; `none` means it is still running. The loop consults no
clock: it ends only when the stream ends or errors. -/
def query_advertisements :
    List (Nat × ClientEvent) → List (SocketAddrV4 × Nat) × Option (Nat × QueryEnd)
  | [] => ([], none)
  | (_, .datagram payload src) :: rest =>
    let r := query_advertisements rest
    (clientHandleDatagram payload src ++ r.1, r.2)
  | (t, .recvError) :: _ => ([], some (t, .failed))
  | (t, .streamEnd) :: _ => ([], some (t, .finished))

/-- The query result set the specification prescribes (§4.4): for each inbound
datagram up to the end of the query, if it decodes to a Response whose marker
equals the response constant, the pair (sender address, decoded port) is a
discovered result; anything else is discarded. Stated over the same event
traces as `query_advertisements`, for comparison with it. -/
def specQueryResults : List (Nat × ClientEvent) → List (SocketAddrV4 × Nat)
  | [] => []
  | (_, .datagram payload src) :: rest =>
    (match bincodeDeserialize payload with
     | some r => if r.magic = magicResponseBytes then [(src, r.port)] else []
     | none => []) ++ specQueryResults rest
  | (_, .recvError) :: _ => []
  | (_, .streamEnd) :: _ => []

/-! ## Multicast socket factory (`multicast_udp_socket`) -/

/-- The OS-level socket calls the factory can issue, in the order the source
issues them. -/
inductive SockCall where
  | create
  | setReuseAddr (enabled : Bool)
  | setMulticastLoop (enabled : Bool)
  | joinMulticast (group : Ipv4Addr) (iface : Ipv4Addr)
  | bindTo (addr : SocketAddrV4)
deriving DecidableEq, Repr

/-- Whether each OS-level call would succeed, were it issued. -/
structure OsOracle where
  createOk : Bool
  reuseOk : Bool
  loopOk : Bool
  joinOk : Bool
  bindOk : Bool
deriving DecidableEq, Repr

/-- `multicast_udp_socket(local_addr)`: issue the five OS calls in source
order, propagating the first failure with `?` (no retry, no further calls).
Returns the calls actually issued and whether a ready socket was produced. -/
def multicast_udp_socket (localAddr : SocketAddrV4) (os : OsOracle) :
    List SockCall × Bool :=
  let c1 : List SockCall := [.create]
  if !os.createOk then (c1, false) else
  let c2 := c1 ++ [.setReuseAddr true]
  if !os.reuseOk then (c2, false) else
  let c3 := c2 ++ [.setMulticastLoop true]
  if !os.loopOk then (c3, false) else
  let c4 := c3 ++ [.joinMulticast IP_MULTICAST localAddr.ip]
  if !os.joinOk then (c4, false) else
  let c5 := c4 ++ [.bindTo localAddr]
  if !os.bindOk then (c5, false) else
  (c5, true)

/-- The call sequence the specification prescribes for the factory (§4.1):
allocate, enable address reuse, enable multicast loopback, join the fixed
group on the given local interface, then bind. -/
def specFactoryCalls (localAddr : SocketAddrV4) : List SockCall :=
  [.create, .setReuseAddr true, .setMulticastLoop true,
   .joinMulticast IP_MULTICAST localAddr.ip, .bindTo localAddr]

/-- The per-call outcomes of an oracle, aligned with `specFactoryCalls`. -/
def oracleOutcomes (os : OsOracle) : List Bool :=
  [os.createOk, os.reuseOk, os.loopOk, os.joinOk, os.bindOk]

/-- The factory behaviour the specification prescribes: issue exactly the
five calls in order, stopping at (and including) the first failing call;
succeed exactly when every call succeeds. -/
def specFactory (localAddr : SocketAddrV4) (os : OsOracle) :
    List SockCall × Bool :=
  let k := (oracleOutcomes os).findIdx (· = false)
  if (oracleOutcomes os).all (· = true) then (specFactoryCalls localAddr, true)
  else ((specFactoryCalls localAddr).take (k + 1), false)

/-! ## Bind addresses of the two roles -/

/-- The server's bind address: `SocketAddrV4::new(IP_ALL, ADVERT_PORT)`. -/
def serverBindAddr : SocketAddrV4 := ⟨IP_ALL, ADVERT_PORT⟩

/-- The client's bind address: `SocketAddrV4::new(IP_ALL.into(), 1234)`. -/
def clientBindAddr : SocketAddrV4 := ⟨IP_ALL, 1234⟩

/-! ## General codec lemmas -/

/-- Reassembling the eight little-endian bytes of a value below `2^64`
recovers it. -/
theorem le64_reconstruct (L : Nat) (h : L < 18446744073709551616) :
    L % 256 + 256 * (L / 256 % 256) + 65536 * (L / 65536 % 256) +
    16777216 * (L / 16777216 % 256) + 4294967296 * (L / 4294967296 % 256) +
    1099511627776 * (L / 1099511627776 % 256) +
    281474976710656 * (L / 281474976710656 % 256) +
    72057594037927936 * (L / 72057594037927936 % 256) = L := by
  have d1 : L / 256 / 256 = L / 65536 := by
    rw [Nat.div_div_eq_div_mul]
  have d2 : L / 65536 / 256 = L / 16777216 := by
    rw [Nat.div_div_eq_div_mul]
  have d3 : L / 16777216 / 256 = L / 4294967296 := by
    rw [Nat.div_div_eq_div_mul]
  have d4 : L / 4294967296 / 256 = L / 1099511627776 := by
    rw [Nat.div_div_eq_div_mul]
  have d5 : L / 1099511627776 / 256 = L / 281474976710656 := by
    rw [Nat.div_div_eq_div_mul]
  have d6 : L / 281474976710656 / 256 = L / 72057594037927936 := by
    rw [Nat.div_div_eq_div_mul]
  omega

/-- Reassembling the four big-endian bytes of a value below `2^32`
recovers it. -/
theorem be32_reconstruct (L : Nat) (h : L < 4294967296) :
    ((L / 16777216 % 256 * 256 + L / 65536 % 256) * 256 + L / 256 % 256) * 256 +
      L % 256 = L := by
  have d1 : L / 256 / 256 = L / 65536 := by
    rw [Nat.div_div_eq_div_mul]
  have d2 : L / 65536 / 256 = L / 16777216 := by
    rw [Nat.div_div_eq_div_mul]
  have d3 : L / 16777216 / 256 = L / 4294967296 := by
    rw [Nat.div_div_eq_div_mul]
  omega

/-- `bincode` round trip: deserializing a serialized record recovers it, for
any record whose port fits in a `u16` and whose magic length fits the `u64`
header (both enforced by the Rust types). -/
theorem bincodeDeserialize_bincodeSerialize (r : AdvertisementResponse)
    (hp : r.port < 65536) (hm : r.magic.length < 18446744073709551616) :
    bincodeDeserialize (bincodeSerialize r) = some r := by
  obtain ⟨m, p⟩ := r
  dsimp only at hp hm
  simp only [bincodeSerialize, le64, le16, List.cons_append, List.nil_append]
  simp only [bincodeDeserialize]
  rw [le64_reconstruct m.length (by simpa using hm)]
  have hlen : m.length ≤ (m ++ [p % 256, p / 256 % 256]).length := by
    simp [List.length_append]
  rw [if_pos hlen]
  have hdrop : (m ++ [p % 256, p / 256 % 256]).drop m.length = [p % 256, p / 256 % 256] :=
    List.drop_left m _
  have htake : (m ++ [p % 256, p / 256 % 256]).take m.length = m :=
    List.take_left m _
  rw [hdrop, htake]
  have hport : p % 256 + 256 * (p / 256 % 256) = p := by omega
  simp [hport]

/-- Framing round trip: deframing a framed payload recovers it, for any
payload within the codec's 8 MiB frame-length limit. -/
theorem decodeFrame_encodeFrame (payload : List Nat)
    (h : payload.length ≤ 8388608) :
    decodeFrame (encodeFrame payload) = some payload := by
  simp only [encodeFrame, be32, List.cons_append, List.nil_append]
  simp only [decodeFrame]
  rw [be32_reconstruct payload.length (by omega)]
  rw [if_pos h, if_pos (Nat.le_refl _), List.take_length]

/-- Characterization of every datagram the server hands to `tx.send`: its body
is the serialized response for the configured port, and its destination is the
source address of a request frame carrying the exact magic bytes. -/
theorem serve_sent_mem (port : Nat) (events : List ServerEvent)
    (pa : List Nat × SocketAddrV4)
    (h : pa ∈ (serve_advertisement port events).1) :
    pa.1 = responseBytes port ∧
      ServerEvent.frame magicRequestBytes pa.2 true ∈ events := by
  induction events with
  | nil => simp [serve_advertisement] at h
  | cons e rest ih =>
    cases e with
    | frame payload src sendOk =>
      by_cases hpm : payload = magicRequestBytes
      · subst hpm
        cases sendOk with
        | true =>
          simp only [serve_advertisement, handleFrame, if_pos rfl, if_true] at h
          rcases List.mem_cons.mp h with h1 | h2
          · subst h1
            exact ⟨rfl, List.mem_cons_self _ _⟩
          · obtain ⟨h3, h4⟩ := ih h2
            exact ⟨h3, List.mem_cons_of_mem _ h4⟩
        | false =>
          simp [serve_advertisement, handleFrame] at h
      · simp only [serve_advertisement, handleFrame, if_neg hpm] at h
        obtain ⟨h3, h4⟩ := ih h
        exact ⟨h3, List.mem_cons_of_mem _ h4⟩
    | recvError => simp [serve_advertisement] at h
    | streamEnd => simp [serve_advertisement] at h

/-! ## Example inputs used by concrete theorems -/

/-- An example peer address (a unicast LAN host with an ephemeral port). -/
def exPeer : SocketAddrV4 := ⟨⟨192, 168, 0, 7⟩, 41000⟩

/-- A client event trace in which a well-formed Response for port 4001
arrives, long after any plausible deadline: at 1 000 000 ms after the request
was sent, the stream then ending one millisecond later. -/
def lateTrace : List (Nat × ClientEvent) :=
  [(1000000, .datagram (responseBytes 4001) exPeer), (1000001, .streamEnd)]

/-- A client event trace with a single well-formed Response for port 4001
from `exPeer`, the stream then ending. -/
def oneResponseTrace : List (Nat × ClientEvent) :=
  [(500, .datagram (responseBytes 4001) exPeer), (1000, .streamEnd)]

/-! ## Claim theorems -/

/-- C1: the claim says a query with timeout `T` always completes within `T`
plus a small fixed scheduling slack, the receive loop being cancelled at the
deadline. The code's receive loop consults no clock: it ends only when the
stream ends. Concretely, with `T = 1000` ms and a slack of 1000 ms, the query
is still running (`none`) after a datagram arriving at 1 000 000 ms, and when
the stream ends at 1 000 001 ms it completes then — far past `T + slack`. -/
theorem query_runs_past_any_deadline :
    (query_advertisements lateTrace).2 = some (1000001, QueryEnd.finished)
    ∧ 1000 + 1000 < 1000001
    ∧ (query_advertisements [(1000000, .datagram (responseBytes 4001) exPeer)]).2
        = none := by decide

/-- C2 (counterexample): the claim says the server remains Listening after a
receive-level transport error. In the code `map_err(drop)` turns a stream
error into a failure of the `loop_fn` future, terminating the server task: on
the trace `[recvError, valid request]` the server replies to nobody and ends
in `recvFailed`, not `listening`. -/
theorem serve_recv_error_not_listening_cex :
    serve_advertisement 4001
        [.recvError, .frame magicRequestBytes exPeer true]
      = ([], ServerOutcome.recvFailed)
    ∧ ServerOutcome.recvFailed ≠ ServerOutcome.listening := by decide

/-- C2 (amended): a receive-level stream error, or a failed send of a reply,
terminates the server task at once (`recvFailed` / `sendFailed`); transport
errors are not contained, and no later event is served. -/
theorem serve_transport_error_terminates (port : Nat) (rest : List ServerEvent)
    (src : SocketAddrV4) :
    serve_advertisement port (.recvError :: rest) = ([], .recvFailed)
    ∧ serve_advertisement port (.frame magicRequestBytes src false :: rest)
        = ([], .sendFailed) := by
  constructor
  · simp [serve_advertisement]
  · simp [serve_advertisement, handleFrame]

/-- C3: the claim says the query yields exactly the validly-decoded Responses
with the correct marker. The code's loop drops every decoded record
(`Ok(a) => drop(a)`) and the query future yields unit: on a trace with one
well-formed Response for port 4001 the code emits nothing, while the
specification prescribes the single pair `(exPeer, 4001)`. -/
theorem query_discards_all_responses :
    (query_advertisements oneResponseTrace).1 = []
    ∧ specQueryResults oneResponseTrace = [(exPeer, 4001)]
    ∧ (specQueryResults oneResponseTrace).length = 1 := by decide

/-- C4 (counterexample): the claim says every inbound frame that does not
decode to a marked Request — malformed and not-decodable ones included — is
discarded with the server remaining Listening. Two malformed raw datagrams
falsify this: `[255,255,255,255]` claims a frame longer than the codec's
8 MiB maximum, so `decode` returns `Err` and the server task terminates
(`recvFailed`), and `[0,0,0,5]` claims five payload bytes it does not carry,
so `decode` returns `Ok(None)` and `UdpFramed` ends the stream (`finished`).
In both traces a valid Request queued right behind the malformed datagram is
never served — the server did not remain Listening. -/
theorem serve_malformed_datagram_not_listening_cex :
    datagramToServerEvent [255, 255, 255, 255] exPeer true
      = ServerEvent.recvError
    ∧ serve_advertisement 4001
        [datagramToServerEvent [255, 255, 255, 255] exPeer true,
         .frame magicRequestBytes exPeer true]
        = ([], ServerOutcome.recvFailed)
    ∧ ServerOutcome.recvFailed ≠ ServerOutcome.listening
    ∧ datagramToServerEvent [0, 0, 0, 5] exPeer true = ServerEvent.streamEnd
    ∧ serve_advertisement 4001
        [datagramToServerEvent [0, 0, 0, 5] exPeer true,
         .frame magicRequestBytes exPeer true]
        = ([], ServerOutcome.finished)
    ∧ ServerOutcome.finished ≠ ServerOutcome.listening := by decide

/-- C4 (amended): for every successfully deframed inbound frame the server
emits a Response exactly when the payload equals the request marker bytes — a
matching request (with a working socket) yields one reply to its sender and
the loop continues, and a deframed frame with any other payload is discarded
without reply, the loop proceeding exactly as if it had not arrived (still
Listening). A raw datagram that fails framing never reaches this check: it
either deframes (consistently with `decodeFrame`), or its oversize header
surfaces as a stream error terminating the server with no reply, or its
truncated frame ends the stream — in neither failure case does the server
remain Listening. -/
theorem serve_frame_marker_and_framing_failures (port : Nat)
    (payload : List Nat) (src : SocketAddrV4) (sendOk : Bool)
    (rest : List ServerEvent) :
    ((handleFrame port payload src).isSome ↔ payload = magicRequestBytes)
    ∧ serve_advertisement port (.frame payload src sendOk :: rest) =
        (if payload = magicRequestBytes then
          (if sendOk then
            ((responseBytes port, src) :: (serve_advertisement port rest).1,
             (serve_advertisement port rest).2)
           else ([], .sendFailed))
         else serve_advertisement port rest)
    ∧ (∀ raw : List Nat,
        (∃ pl, datagramToServerEvent raw src sendOk = .frame pl src sendOk
          ∧ decodeFrame raw = some pl)
        ∨ (datagramToServerEvent raw src sendOk = .recvError
          ∧ serve_advertisement port (.recvError :: rest)
              = ([], .recvFailed))
        ∨ (datagramToServerEvent raw src sendOk = .streamEnd
          ∧ serve_advertisement port (.streamEnd :: rest)
              = ([], .finished))) := by
  refine ⟨?_, ?_, ?_⟩
  · by_cases hpm : payload = magicRequestBytes <;> simp [handleFrame, hpm]
  · by_cases hpm : payload = magicRequestBytes
    · subst hpm
      cases sendOk <;> simp [handleFrame, serve_advertisement]
    · simp [handleFrame, serve_advertisement, hpm]
  · intro raw
    rcases raw with _ | ⟨b0, _ | ⟨b1, _ | ⟨b2, _ | ⟨b3, tail⟩⟩⟩⟩
    · exact Or.inr (Or.inr ⟨rfl, by simp [serve_advertisement]⟩)
    · exact Or.inr (Or.inr ⟨rfl, by simp [serve_advertisement]⟩)
    · exact Or.inr (Or.inr ⟨rfl, by simp [serve_advertisement]⟩)
    · exact Or.inr (Or.inr ⟨rfl, by simp [serve_advertisement]⟩)
    · by_cases h1 : ((b0 * 256 + b1) * 256 + b2) * 256 + b3 ≤ 8388608
      · by_cases h2 : ((b0 * 256 + b1) * 256 + b2) * 256 + b3 ≤ tail.length
        · exact Or.inl ⟨tail.take (((b0 * 256 + b1) * 256 + b2) * 256 + b3),
            by simp [datagramToServerEvent, h1, h2],
            by simp [decodeFrame, h1, h2]⟩
        · exact Or.inr (Or.inr ⟨by simp [datagramToServerEvent, h1, h2],
            by simp [serve_advertisement]⟩)
      · exact Or.inr (Or.inl ⟨by simp [datagramToServerEvent, h1],
          by simp [serve_advertisement]⟩)

/-- C5: every datagram the server sends is addressed to the exact peer address
a valid Request arrived from, its body is the serialization of
`{ magic: MAGIC_RESPONSE, port }` for the port argument given to serve, and —
as long as no inbound request bore the multicast group as its source — the
reply never targets the multicast group. -/
theorem serve_reply_unicast_to_sender (port : Nat) (events : List ServerEvent)
    (payload : List Nat) (dst : SocketAddrV4) (hp : port < 65536)
    (h : (payload, dst) ∈ (serve_advertisement port events).1) :
    payload = responseBytes port
    ∧ bincodeDeserialize payload = some ⟨magicResponseBytes, port⟩
    ∧ ServerEvent.frame magicRequestBytes dst true ∈ events
    ∧ ((∀ a, ServerEvent.frame magicRequestBytes a true ∈ events →
          a.ip ≠ IP_MULTICAST) → dst.ip ≠ IP_MULTICAST) := by
  obtain ⟨h1, h2⟩ := serve_sent_mem port events (payload, dst) h
  simp only at h1 h2
  refine ⟨h1, ?_, h2, fun hall => hall dst h2⟩
  rw [h1, responseBytes]
  exact bincodeDeserialize_bincodeSerialize ⟨magicResponseBytes, port⟩ hp
    (by dsimp only; decide)

/-- Witness for C5 at a concrete trace: one valid request from `exPeer`. -/
theorem serve_reply_unicast_to_sender_witness :
    4001 < 65536
    ∧ (responseBytes 4001, exPeer)
        ∈ (serve_advertisement 4001
            [.frame magicRequestBytes exPeer true, .streamEnd]).1
    ∧ (responseBytes 4001 = responseBytes 4001
       ∧ bincodeDeserialize (responseBytes 4001)
           = some ⟨magicResponseBytes, 4001⟩
       ∧ ServerEvent.frame magicRequestBytes exPeer true
           ∈ [ServerEvent.frame magicRequestBytes exPeer true, .streamEnd]
       ∧ ((∀ a, ServerEvent.frame magicRequestBytes a true
              ∈ [ServerEvent.frame magicRequestBytes exPeer true, .streamEnd] →
             a.ip ≠ IP_MULTICAST) → exPeer.ip ≠ IP_MULTICAST)) :=
  ⟨by decide, by decide,
   serve_reply_unicast_to_sender 4001
     [.frame magicRequestBytes exPeer true, .streamEnd]
     (responseBytes 4001) exPeer (by decide) (by decide)⟩

/-- C6 (counterexample): the claim says a decode failure on an arbitrary byte
sequence is an explicit error the caller treats as a discarded datagram. At
the framing layer this is false: the raw datagram `[255,0,0,0]` (header
claiming a frame over the 8 MiB maximum) surfaces as a codec `Err`, which
fails the whole query at its arrival time — unlike discarding it, after which
the same query would run on and end normally with the stream. -/
theorem query_framing_error_not_discarded_cex :
    datagramToClientEvent [255, 0, 0, 0] exPeer = ClientEvent.recvError
    ∧ query_advertisements
        ((10, datagramToClientEvent [255, 0, 0, 0] exPeer) ::
          [(20, .datagram (responseBytes 4001) exPeer), (30, .streamEnd)])
        = ([], some (10, QueryEnd.failed))
    ∧ query_advertisements
        [(20, .datagram (responseBytes 4001) exPeer), (30, .streamEnd)]
        = ([], some (30, QueryEnd.finished))
    ∧ (some (10, QueryEnd.failed) : Option (Nat × QueryEnd))
        ≠ some (30, QueryEnd.finished) := by decide

/-- C6 (amended): deframing and deserializing the framed serialization of a
Response record (for any `u16` port) recovers the record exactly, and likewise
for the raw-marker Request payload; decoding is total into `Option` — failure
is an explicit value, never a panic — but only a record-codec failure is
treated as a discarded datagram (the client loop continues unchanged). A
framing-level failure is not discarded: every raw datagram either deframes
(consistently with `decodeFrame`), or its oversize header fails the query as
a stream error at its arrival time, or its truncated frame ends the stream
and the query completes then. -/
theorem codec_round_trip_and_error_channels (p : Nat) (hp : p < 65536) :
    (decodeFrame (encodeFrame (bincodeSerialize ⟨magicResponseBytes, p⟩))).bind
        bincodeDeserialize = some ⟨magicResponseBytes, p⟩
    ∧ decodeFrame (encodeFrame magicRequestBytes) = some magicRequestBytes
    ∧ (∀ bs t src rest, bincodeDeserialize bs = none →
        query_advertisements ((t, .datagram bs src) :: rest)
          = query_advertisements rest)
    ∧ (∀ raw src, ∀ t : Nat, ∀ rest : List (Nat × ClientEvent),
        (∃ pl, datagramToClientEvent raw src = .datagram pl src
          ∧ decodeFrame raw = some pl)
        ∨ (datagramToClientEvent raw src = .recvError
          ∧ query_advertisements ((t, .recvError) :: rest)
              = ([], some (t, .failed)))
        ∨ (datagramToClientEvent raw src = .streamEnd
          ∧ query_advertisements ((t, .streamEnd) :: rest)
              = ([], some (t, .finished)))) := by
  have hml : magicResponseBytes.length = 31 := by decide
  have hlen : (bincodeSerialize ⟨magicResponseBytes, p⟩).length = 41 := by
    simp [bincodeSerialize, le64, le16, hml]
  refine ⟨?_, ?_, ?_, ?_⟩
  · rw [decodeFrame_encodeFrame _ (by rw [hlen]; norm_num), Option.some_bind]
    exact bincodeDeserialize_bincodeSerialize ⟨magicResponseBytes, p⟩ hp
      (by dsimp only; decide)
  · exact decodeFrame_encodeFrame magicRequestBytes (by decide)
  · intro bs t src rest hnone
    simp [query_advertisements, clientHandleDatagram, hnone]
  · intro raw src t rest
    rcases raw with _ | ⟨b0, _ | ⟨b1, _ | ⟨b2, _ | ⟨b3, tail⟩⟩⟩⟩
    · exact Or.inr (Or.inr ⟨rfl, by simp [query_advertisements]⟩)
    · exact Or.inr (Or.inr ⟨rfl, by simp [query_advertisements]⟩)
    · exact Or.inr (Or.inr ⟨rfl, by simp [query_advertisements]⟩)
    · exact Or.inr (Or.inr ⟨rfl, by simp [query_advertisements]⟩)
    · by_cases h1 : ((b0 * 256 + b1) * 256 + b2) * 256 + b3 ≤ 8388608
      · by_cases h2 : ((b0 * 256 + b1) * 256 + b2) * 256 + b3 ≤ tail.length
        · exact Or.inl ⟨tail.take (((b0 * 256 + b1) * 256 + b2) * 256 + b3),
            by simp [datagramToClientEvent, h1, h2],
            by simp [decodeFrame, h1, h2]⟩
        · exact Or.inr (Or.inr ⟨by simp [datagramToClientEvent, h1, h2],
            by simp [query_advertisements]⟩)
      · exact Or.inr (Or.inl ⟨by simp [datagramToClientEvent, h1],
          by simp [query_advertisements]⟩)

/-- Witness for the amended C6 at port 4001. -/
theorem codec_round_trip_and_error_channels_witness :
    4001 < 65536
    ∧ ((decodeFrame (encodeFrame (bincodeSerialize ⟨magicResponseBytes, 4001⟩))).bind
          bincodeDeserialize = some ⟨magicResponseBytes, 4001⟩
       ∧ decodeFrame (encodeFrame magicRequestBytes) = some magicRequestBytes
       ∧ (∀ bs t src rest, bincodeDeserialize bs = none →
           query_advertisements ((t, .datagram bs src) :: rest)
             = query_advertisements rest)
       ∧ (∀ raw src, ∀ t : Nat, ∀ rest : List (Nat × ClientEvent),
           (∃ pl, datagramToClientEvent raw src = .datagram pl src
             ∧ decodeFrame raw = some pl)
           ∨ (datagramToClientEvent raw src = .recvError
             ∧ query_advertisements ((t, .recvError) :: rest)
                 = ([], some (t, .failed)))
           ∨ (datagramToClientEvent raw src = .streamEnd
             ∧ query_advertisements ((t, .streamEnd) :: rest)
                 = ([], some (t, .finished))))) :=
  ⟨by decide, codec_round_trip_and_error_channels 4001 (by decide)⟩

/-- C7 (counterexample): the claim says the client binds to an ephemeral port
(port 0, chosen by the OS). The source binds the client socket to
`SocketAddrV4::new(IP_ALL, 1234)` — the fixed port 1234, not an ephemeral
one. -/
theorem client_bind_port_not_ephemeral_cex :
    clientBindAddr.port = 1234 ∧ clientBindAddr.port ≠ 0 := by decide

/-- C7 (amended): the server binds to the fixed advertisement port 29999 and
the client to the fixed port 1234 (not an ephemeral port); the two ports
differ, so a server and a client in the same process still own independent
sockets. -/
theorem bind_ports_fixed_and_distinct :
    serverBindAddr = ⟨IP_ALL, ADVERT_PORT⟩
    ∧ serverBindAddr.port = 29999
    ∧ clientBindAddr = ⟨IP_ALL, 1234⟩
    ∧ serverBindAddr.port ≠ clientBindAddr.port := by decide

/-- C8: for every bind address and every pattern of OS-call outcomes, the
socket factory issues exactly the five calls — allocate, enable address
reuse, enable multicast loopback, join the fixed group on the local
interface, bind — in that order, stopping at the first failing call with a
fatal error (no retry, no further calls), and succeeding exactly when all
five succeed. -/
theorem socket_factory_call_sequence (localAddr : SocketAddrV4)
    (os : OsOracle) :
    multicast_udp_socket localAddr os = specFactory localAddr os := by
  rcases os with ⟨c, r, l, j, b⟩
  cases c <;> cases r <;> cases l <;> cases j <;> cases b <;> rfl

/-- C9: the client's request datagram body is the raw UTF-8 bytes of the
marker string (every byte ASCII), not a bincode-serialized record; the server
validates a frame by direct byte equality against that same constant; and the
frame the client sends deframes on the server side to exactly those bytes, so
every Request the client sends passes the server's acceptance check. -/
theorem request_wire_format_and_acceptance (port : Nat) (src : SocketAddrV4)
    (r : AdvertisementResponse) :
    queryRequestSend = (magicRequestBytes, ⟨IP_MULTICAST, ADVERT_PORT⟩)
    ∧ magicRequestBytes = asciiBytes "cribbage-advertisement-request"
    ∧ magicRequestBytes.all (· < 128) = true
    ∧ bincodeSerialize r ≠ magicRequestBytes
    ∧ handleFrame port magicRequestBytes src = some (responseBytes port, src)
    ∧ decodeFrame (encodeFrame magicRequestBytes) = some magicRequestBytes := by
  have h30 : magicRequestBytes.length = 30 := by decide
  have h99 : magicRequestBytes.head? = some 99 := by decide
  refine ⟨rfl, rfl, by decide, ?_, ?_, ?_⟩
  · intro heq
    have hl := congrArg List.length heq
    simp [bincodeSerialize, le64, le16, h30] at hl
    have hh := congrArg List.head? heq
    simp [bincodeSerialize, le64, h99] at hh
    omega
  · simp [handleFrame]
  · exact decodeFrame_encodeFrame magicRequestBytes (by decide)

/-- C10: the body of any reply the server sends is a function of the port
argument alone (together with the compile-time constants): any two datagrams
sent by any two runs of `serve_advertisement port`, over any event traces and
to any requesters, carry the identical byte sequence `responseBytes port`. -/
theorem response_payload_requester_independent (port : Nat)
    (ev1 ev2 : List ServerEvent) (p1 p2 : List Nat) (a1 a2 : SocketAddrV4)
    (h1 : (p1, a1) ∈ (serve_advertisement port ev1).1)
    (h2 : (p2, a2) ∈ (serve_advertisement port ev2).1) :
    p1 = responseBytes port ∧ p1 = p2 := by
  have e1 := (serve_sent_mem port ev1 (p1, a1) h1).1
  have e2 := (serve_sent_mem port ev2 (p2, a2) h2).1
  simp only at e1 e2
  exact ⟨e1, e1.trans e2.symm⟩

/-- Witness for C10: two runs over different traces, different requesters. -/
theorem response_payload_requester_independent_witness :
    (responseBytes 4001, exPeer)
      ∈ (serve_advertisement 4001 [.frame magicRequestBytes exPeer true]).1
    ∧ (responseBytes 4001, ⟨⟨10, 0, 0, 9⟩, 50000⟩)
        ∈ (serve_advertisement 4001
            [.frame [7] exPeer true,
             .frame magicRequestBytes ⟨⟨10, 0, 0, 9⟩, 50000⟩ true,
             .streamEnd]).1
    ∧ (responseBytes 4001 = responseBytes 4001
       ∧ responseBytes 4001 = responseBytes 4001) :=
  ⟨by decide, by decide,
   response_payload_requester_independent 4001
     [.frame magicRequestBytes exPeer true]
     [.frame [7] exPeer true,
      .frame magicRequestBytes ⟨⟨10, 0, 0, 9⟩, 50000⟩ true,
      .streamEnd]
     (responseBytes 4001) (responseBytes 4001) exPeer ⟨⟨10, 0, 0, 9⟩, 50000⟩
     (by decide) (by decide)⟩

end Cribbage
